import Mathlib

/-!
Verification development for the Kernixcord runtime-patch collection.

The repository consists of three independent patch modules:
* `src/menu-fix.ts` — a bounded retry loop (`ensureMenuComponents`) that polls
  an external module registry for menu components;
* `src/performance-patches.ts` — a patched global `setTimeout` and a
  temporary settings toggle (`disableHeavyFeaturesTemporarily`);
* `src/kernixcordplugins/VoiceCrashPreventer/index.ts` — exception-suppressing
  wrappers around `setSinkId`, `getDisplayMedia` and `getUserMedia`.

Each module is shallowly embedded below.  External host primitives
(`waitFor`, the module registry, timers) are modelled as explicit
environment parameters: the registry's answers become inputs of the embedded
functions, and scheduled timer work is returned as data instead of being
executed.  Logging is pure observation and is omitted.
-/

namespace Kernixcord

namespace MenuFix

/-- Settlement of a JavaScript promise: it either fulfils or rejects.
A promise that never settles is represented by `LoadResult.pending` below. -/
inductive PromiseOutcome where
  | resolved : PromiseOutcome
  | rejected : PromiseOutcome
deriving DecidableEq

/-- How one per-query race in `loadPromises` (menu-fix.ts lines 32-47) plays
out: either the 2-second `setTimeout` fires first, or the `waitFor`
registration calls back first with a component whose truthiness is recorded. -/
inductive QueryEvent where
  | timeoutFirst : QueryEvent
  | matchFirst : Bool → QueryEvent
deriving DecidableEq

/-- Outcome of one per-query promise (menu-fix.ts lines 33-46).  Both the
timeout handler and the `waitFor` callback invoke `menuResolve()`; neither
path rejects, so the race settles resolved in every case. -/
def queryRace : QueryEvent → PromiseOutcome
  | QueryEvent.timeoutFirst => PromiseOutcome.resolved
  | QueryEvent.matchFirst _ => PromiseOutcome.resolved

/-- The `menuSelectors` array has seven entries (menu-fix.ts lines 13-21). -/
def numSelectors : Nat := 7

/-- `Promise.all` over the per-query races: it fulfils when every constituent
promise fulfils and rejects as soon as one rejects. -/
def promiseAll (races : Fin numSelectors → PromiseOutcome) : PromiseOutcome :=
  if ∀ i, races i = PromiseOutcome.resolved then PromiseOutcome.resolved
  else PromiseOutcome.rejected

/-- `MAX_RETRIES` (menu-fix.ts line 25). -/
def MAX_RETRIES : Nat := 5

/-- Final status of the promise returned by `ensureMenuComponents`:
fulfilled via `resolve()`, rejected via `reject(...)`, or never settled. -/
inductive LoadResult where
  | resolved : LoadResult
  | rejected : LoadResult
  | pending : LoadResult
deriving DecidableEq

/-- Observable bookkeeping of one run of the retry loop: the settlement of
the outer promise, the number of `attemptLoad` invocations performed, and the
total delay scheduled through the inter-attempt `setTimeout(_, 1000)` calls. -/
structure RunStats where
  result : LoadResult
  attempts : Nat
  retryDelay : Nat
deriving DecidableEq

/-- Shallow embedding of `attemptLoad` (menu-fix.ts lines 29-64).

The environment is split in two: `qenv attempt i` says how the race for
selector `i` plays out on a given attempt, and `cenv attempt` gives the
truthiness of the component that the verification `waitFor` on line 51
delivers to its callback on that attempt (the spec's registry interface:
`waitFor` calls back with the matched component, and the code branches on
the component's truthiness on line 52).

Control flow follows the source: once all per-query races settle, the
critical check runs; a truthy component resolves the outer promise; a falsy
one retries after a scheduled 1000 ms delay while `attempt < MAX_RETRIES`,
and rejects otherwise. -/
def attemptLoad (qenv : Nat → Fin numSelectors → QueryEvent) (cenv : Nat → Bool)
    (attempt : Nat) : RunStats :=
  match promiseAll (fun i => queryRace (qenv attempt i)) with
  | PromiseOutcome.rejected => ⟨LoadResult.pending, 1, 0⟩
  | PromiseOutcome.resolved =>
    if cenv attempt then ⟨LoadResult.resolved, 1, 0⟩
    else if h : attempt < MAX_RETRIES then
      let rest := attemptLoad qenv cenv (attempt + 1)
      ⟨rest.result, rest.attempts + 1, rest.retryDelay + 1000⟩
    else ⟨LoadResult.rejected, 1, 0⟩
termination_by MAX_RETRIES - attempt
decreasing_by simp only [MAX_RETRIES] at h ⊢; omega

/-- Shallow embedding of `ensureMenuComponents` (menu-fix.ts lines 27-68):
the retry loop is entered at attempt 1. -/
def ensureMenuComponents (qenv : Nat → Fin numSelectors → QueryEvent)
    (cenv : Nat → Bool) : RunStats :=
  attemptLoad qenv cenv 1

end MenuFix

namespace PerformancePatches

/-- The string pattern `optimizeWebpackLoading` searches for in the
callback's source text (performance-patches.ts line 22). -/
def webpackPattern : String := "Reflect.deleteProperty"

/-- Substring test on character lists: `containsSub pat hay` holds when
`pat` occurs contiguously inside `hay`, matching the semantics of
JavaScript's `String.prototype.includes`. -/
def containsSub (pat : List Char) : List Char → Bool
  | [] => pat.isEmpty
  | c :: rest => pat.isPrefixOf (c :: rest) || containsSub pat rest

/-- `String.prototype.includes`, embedded over the underlying characters. -/
def strIncludes (s pat : String) : Bool := containsSub pat.data s.data

/-- The argument triple that the patched `setTimeout` forwards to the
original `setTimeout`.  A callback is represented by its source text (the
code only ever inspects `callback.toString()`); extra arguments are an
opaque list. -/
structure TimerRequest (α : Type) where
  cbSource : String
  delay : Nat
  args : List α
deriving DecidableEq

/-- Shallow embedding of the patched global `setTimeout` installed by
`optimizeWebpackLoading` (performance-patches.ts lines 20-26): when the
delay is strictly equal to 0 and the callback's source text contains
`webpackPattern`, it forwards the callback with delay 1; otherwise it
forwards callback, delay and arguments untouched. -/
def patchedSetTimeout {α : Type} (cbSource : String) (delay : Nat)
    (args : List α) : TimerRequest α :=
  if delay = 0 && strIncludes cbSource webpackPattern then
    ⟨cbSource, 1, args⟩
  else
    ⟨cbSource, delay, args⟩

/-- Heap of `cloud` settings objects, indexed by reference id; each object
carries its `settingsSync` boolean.  References make the shallow-copy
aliasing in `disableHeavyFeaturesTemporarily` explicit. -/
structure Store where
  cloudObjs : Nat → Bool

/-- The top level of the host `Settings` object: its `cloud` property is a
reference into the `Store` (or absent, for the `cloud?.` optional chain). -/
structure SettingsRecord where
  cloudRef : Option Nat
deriving DecidableEq

/-- The spread `{ ...Settings }` (performance-patches.ts line 60): a shallow
copy, so the copy's `cloud` property is the very same reference as
`Settings.cloud`. -/
def shallowCopy (s : SettingsRecord) : SettingsRecord :=
  { cloudRef := s.cloudRef }

/-- Truthiness of `r.cloud?.settingsSync` in store `st`: `false` when the
`cloud` property is absent (the optional chain yields `undefined`). -/
def readSync (st : Store) (r : SettingsRecord) : Bool :=
  match r.cloudRef with
  | some ref => st.cloudObjs ref
  | none => false

/-- Assignment `r.cloud.settingsSync = b`: updates the referenced cloud
object in place.  (The `none` branch is unreachable in the embedded code:
every write is guarded by a truthy read.) -/
def writeSync (st : Store) (r : SettingsRecord) (b : Bool) : Store :=
  match r.cloudRef with
  | some ref => ⟨fun i => if i = ref then b else st.cloudObjs i⟩
  | none => st

/-- Shallow embedding of `disableHeavyFeaturesTemporarily`
(performance-patches.ts lines 58-73).  Returns the store as it stands when
the function returns, together with the timer work it scheduled: `none`
when no timer was registered, or `some (delayMs, action)` for the
`setTimeout` on lines 68-71.  The scheduled action is the callback body
`Settings.cloud.settingsSync = true`, applied to whatever store exists when
the timer fires; note it writes through the live `settings` record and
assigns `true` unconditionally. -/
def disableHeavyFeaturesTemporarily (st : Store) (settings : SettingsRecord) :
    Store × Option (Nat × (Store → Store)) :=
  let originalSettings := shallowCopy settings
  if readSync st originalSettings then
    (writeSync st originalSettings false,
      some (5000, fun st2 => writeSync st2 settings true))
  else
    (st, none)

end PerformancePatches

namespace VoiceCrashPreventer

/-- JavaScript values as far as the wrappers inspect them: the guards only
ever test truthiness of constraint fields, so `undefined`, booleans and
opaque objects (identified by id) suffice. -/
inductive JSVal where
  | undef : JSVal
  | boolean : Bool → JSVal
  | obj : Nat → JSVal
deriving DecidableEq

/-- JavaScript truthiness for the embedded values: `undefined` and `false`
are falsy, `true` and every object are truthy. -/
def JSVal.truthy : JSVal → Bool
  | JSVal.undef => false
  | JSVal.boolean b => b
  | JSVal.obj _ => true

/-- A `MediaStreamConstraints` dictionary restricted to the two fields the
wrapper reads and forwards: `audio` and `video`.  An absent field is
`JSVal.undef`. -/
structure MediaStreamConstraints where
  audio : JSVal
  video : JSVal
deriving DecidableEq

/-- What the patched `setSinkId` returns: the original's return value, or
the `Promise.resolve()` fallback fabricated on index.ts line 166. -/
inductive SinkResult (ρ : Type) where
  | orig : ρ → SinkResult ρ
  | resolvedPromise : SinkResult ρ
deriving DecidableEq

/-- What the patched `getDisplayMedia` returns: the original's return
value, or the `Promise.resolve(new MediaStream())` fallback fabricated on
index.ts line 182. -/
inductive DisplayResult (ρ : Type) where
  | orig : ρ → DisplayResult ρ
  | emptyStream : DisplayResult ρ
deriving DecidableEq

/-- Shallow embedding of the patched `HTMLMediaElement.prototype.setSinkId`
(index.ts lines 157-170).  The original function is an environment
parameter that either returns a value or throws (`Except.error`); the
second component of the result records the arguments of every call made to
the original, in order.  `logEvents` only adds logging and is omitted. -/
def setSinkId {σ ε ρ : Type} (preventCrash : Bool) (orig : σ → Except ε ρ)
    (sinkId : σ) : Except ε (SinkResult ρ) × List σ :=
  match orig sinkId with
  | Except.ok r => (Except.ok (SinkResult.orig r), [sinkId])
  | Except.error e =>
    if preventCrash then (Except.ok SinkResult.resolvedPromise, [sinkId])
    else (Except.error e, [sinkId])

/-- Shallow embedding of the patched `navigator.mediaDevices.getDisplayMedia`
(index.ts lines 176-186), with the same conventions as `setSinkId`. -/
def getDisplayMedia {σ ε ρ : Type} (preventCrash : Bool)
    (orig : σ → Except ε ρ) (constraints : σ) :
    Except ε (DisplayResult ρ) × List σ :=
  match orig constraints with
  | Except.ok r => (Except.ok (DisplayResult.orig r), [constraints])
  | Except.error e =>
    if preventCrash then (Except.ok DisplayResult.emptyStream, [constraints])
    else (Except.error e, [constraints])

/-- Shallow embedding of the patched `navigator.mediaDevices.getUserMedia`
(index.ts lines 189-202).  `constraints` is optional in the source
(`constraints?: MediaStreamConstraints`), so the argument is an `Option`;
the guard `preventCrash && constraints?.video` tests the truthiness of the
`video` field through the optional chain.  On a caught error with the guard
satisfied, the original is called once more with `{ audio: constraints.audio }`
— a fresh dictionary whose `video` field is absent — and that second call's
outcome (value or exception) is returned as is. -/
def getUserMedia {ε ρ : Type} (preventCrash : Bool)
    (orig : Option MediaStreamConstraints → Except ε ρ)
    (constraints : Option MediaStreamConstraints) :
    Except ε ρ × List (Option MediaStreamConstraints) :=
  match orig constraints with
  | Except.ok r => (Except.ok r, [constraints])
  | Except.error e =>
    match constraints with
    | some c =>
      if preventCrash && c.video.truthy then
        (orig (some ⟨c.audio, JSVal.undef⟩),
          [constraints, some ⟨c.audio, JSVal.undef⟩])
      else (Except.error e, [constraints])
    | none => (Except.error e, [constraints])

/-- Concrete original `getUserMedia` used to exhibit the retry: it throws
whenever a truthy `video` constraint is present and succeeds otherwise. -/
def videoRejectingOrig : Option MediaStreamConstraints → Except Unit Nat :=
  fun c =>
    match c with
    | some c2 => if c2.video.truthy then Except.error () else Except.ok 0
    | none => Except.error ()

/-- Concrete constraints requesting both audio and video. -/
def audioVideoConstraints : Option MediaStreamConstraints :=
  some ⟨JSVal.boolean true, JSVal.boolean true⟩

end VoiceCrashPreventer

namespace MenuFix

/-- Every per-query race settles resolved, so `Promise.all` over the seven
races settles resolved on every attempt. -/
theorem promiseAll_queryRace (qenv : Nat → Fin numSelectors → QueryEvent)
    (attempt : Nat) :
    promiseAll (fun i => queryRace (qenv attempt i)) = PromiseOutcome.resolved := by
  unfold promiseAll
  rw [if_pos]
  intro i
  show queryRace (qenv attempt i) = PromiseOutcome.resolved
  cases qenv attempt i <;> rfl

/-- Unfolding `attemptLoad` when the critical check delivers a truthy
component: the outer promise resolves on this attempt. -/
theorem attemptLoad_true (qenv : Nat → Fin numSelectors → QueryEvent)
    (cenv : Nat → Bool) (attempt : Nat) (h : cenv attempt = true) :
    attemptLoad qenv cenv attempt = ⟨LoadResult.resolved, 1, 0⟩ := by
  rw [attemptLoad, promiseAll_queryRace, h]
  simp

/-- Unfolding `attemptLoad` when the critical check delivers a falsy
component and retries remain: the loop recurses with one more attempt and
1000 ms more scheduled delay. -/
theorem attemptLoad_false_lt (qenv : Nat → Fin numSelectors → QueryEvent)
    (cenv : Nat → Bool) (attempt : Nat) (h : cenv attempt = false)
    (hl : attempt < MAX_RETRIES) :
    attemptLoad qenv cenv attempt =
      ⟨(attemptLoad qenv cenv (attempt + 1)).result,
        (attemptLoad qenv cenv (attempt + 1)).attempts + 1,
        (attemptLoad qenv cenv (attempt + 1)).retryDelay + 1000⟩ := by
  rw [attemptLoad, promiseAll_queryRace, h]
  simp [hl]

/-- Unfolding `attemptLoad` when the critical check delivers a falsy
component on the final attempt: the outer promise rejects. -/
theorem attemptLoad_false_last (qenv : Nat → Fin numSelectors → QueryEvent)
    (cenv : Nat → Bool) (attempt : Nat) (h : cenv attempt = false)
    (hl : ¬ attempt < MAX_RETRIES) :
    attemptLoad qenv cenv attempt = ⟨LoadResult.rejected, 1, 0⟩ := by
  rw [attemptLoad, promiseAll_queryRace, h]
  simp [hl]

/-- Full characterization of a run of `ensureMenuComponents`: the outcome,
attempt count and scheduled retry delay are determined by the truthiness
sequence of the critical check alone. -/
theorem ensureMenuComponents_char (qenv : Nat → Fin numSelectors → QueryEvent)
    (cenv : Nat → Bool) :
    ensureMenuComponents qenv cenv =
      if cenv 1 then ⟨LoadResult.resolved, 1, 0⟩
      else if cenv 2 then ⟨LoadResult.resolved, 2, 1000⟩
      else if cenv 3 then ⟨LoadResult.resolved, 3, 2000⟩
      else if cenv 4 then ⟨LoadResult.resolved, 4, 3000⟩
      else if cenv 5 then ⟨LoadResult.resolved, 5, 4000⟩
      else ⟨LoadResult.rejected, 5, 4000⟩ := by
  unfold ensureMenuComponents
  cases h1 : cenv 1 with
  | true => rw [attemptLoad_true qenv cenv 1 h1]; simp [h1]
  | false =>
    rw [attemptLoad_false_lt qenv cenv 1 h1 (by decide)]
    cases h2 : cenv 2 with
    | true => rw [attemptLoad_true qenv cenv 2 h2]; simp [h1, h2]
    | false =>
      rw [attemptLoad_false_lt qenv cenv 2 h2 (by decide)]
      cases h3 : cenv 3 with
      | true => rw [attemptLoad_true qenv cenv 3 h3]; simp [h1, h2, h3]
      | false =>
        rw [attemptLoad_false_lt qenv cenv 3 h3 (by decide)]
        cases h4 : cenv 4 with
        | true => rw [attemptLoad_true qenv cenv 4 h4]; simp [h1, h2, h3, h4]
        | false =>
          rw [attemptLoad_false_lt qenv cenv 4 h4 (by decide)]
          cases h5 : cenv 5 with
          | true =>
            rw [attemptLoad_true qenv cenv 5 h5]; simp [h1, h2, h3, h4, h5]
          | false =>
            rw [attemptLoad_false_last qenv cenv 5 h5 (by decide)]
            simp [h1, h2, h3, h4, h5]

/-- A truthy critical answer exists within the retry budget exactly when one
of the five possible attempts would see it. -/
theorem critWithin_iff (cenv : Nat → Bool) :
    (∃ k, 1 ≤ k ∧ k ≤ MAX_RETRIES ∧ cenv k = true) ↔
      (cenv 1 = true ∨ cenv 2 = true ∨ cenv 3 = true ∨ cenv 4 = true ∨
        cenv 5 = true) := by
  constructor
  · rintro ⟨k, hk1, hk5, hk⟩
    simp only [MAX_RETRIES] at hk5
    interval_cases k <;> simp [hk]
  · rintro (h | h | h | h | h)
    · exact ⟨1, by decide, by decide, h⟩
    · exact ⟨2, by decide, by decide, h⟩
    · exact ⟨3, by decide, by decide, h⟩
    · exact ⟨4, by decide, by decide, h⟩
    · exact ⟨5, by decide, by decide, h⟩

/-- Claim C1: for every sequence of query events and critical-check answers,
`ensureMenuComponents` resolves successfully iff the critical query
(`MenuCheckboxItem`) delivers a truthy component within 5 attempts, and the
retry loop never performs more than 5 attempts. -/
theorem ensureMenuComponents_resolved_iff
    (qenv : Nat → Fin numSelectors → QueryEvent) (cenv : Nat → Bool) :
    ((ensureMenuComponents qenv cenv).result = LoadResult.resolved ↔
      ∃ k, 1 ≤ k ∧ k ≤ MAX_RETRIES ∧ cenv k = true) ∧
    (ensureMenuComponents qenv cenv).attempts ≤ MAX_RETRIES := by
  rw [ensureMenuComponents_char, critWithin_iff]
  cases h1 : cenv 1 <;> cases h2 : cenv 2 <;> cases h3 : cenv 3 <;>
    cases h4 : cenv 4 <;> cases h5 : cenv 5 <;>
      simp [h1, h2, h3, h4, h5, MAX_RETRIES]

/-- Witness for claim C1: all races timing out and the critical check
truthy on attempt 2 only. -/
theorem ensureMenuComponents_resolved_iff_witness :
    ((ensureMenuComponents (fun _ _ => QueryEvent.timeoutFirst)
        (fun k => k == 2)).result = LoadResult.resolved ↔
      ∃ k, 1 ≤ k ∧ k ≤ MAX_RETRIES ∧ (k == 2) = true) ∧
    (ensureMenuComponents (fun _ _ => QueryEvent.timeoutFirst)
        (fun k => k == 2)).attempts ≤ MAX_RETRIES :=
  ensureMenuComponents_resolved_iff (fun _ _ => QueryEvent.timeoutFirst)
    (fun k => k == 2)

/-- Claim C2: if the critical check never delivers a truthy component,
`ensureMenuComponents` rejects after exactly 5 attempts with exactly 4000 ms
of scheduled inter-attempt delay (four 1000 ms waits between the five
attempts), for every behaviour of the per-query races — in particular
independently of how many per-query timeouts fired. -/
theorem ensureMenuComponents_exhaustion
    (qenv : Nat → Fin numSelectors → QueryEvent) (cenv : Nat → Bool)
    (h : ∀ k, cenv k = false) :
    (ensureMenuComponents qenv cenv).result = LoadResult.rejected ∧
    (ensureMenuComponents qenv cenv).attempts = MAX_RETRIES ∧
    (ensureMenuComponents qenv cenv).retryDelay = 4000 := by
  rw [ensureMenuComponents_char]
  simp [h, MAX_RETRIES]

/-- Witness for claim C2: all seven races timing out on every attempt and
the critical check always falsy. -/
theorem ensureMenuComponents_exhaustion_witness :
    (ensureMenuComponents (fun _ _ => QueryEvent.timeoutFirst)
        (fun _ => false)).result = LoadResult.rejected ∧
    (ensureMenuComponents (fun _ _ => QueryEvent.timeoutFirst)
        (fun _ => false)).attempts = MAX_RETRIES ∧
    (ensureMenuComponents (fun _ _ => QueryEvent.timeoutFirst)
        (fun _ => false)).retryDelay = 4000 :=
  ensureMenuComponents_exhaustion (fun _ _ => QueryEvent.timeoutFirst)
    (fun _ => false) (fun _ => rfl)

/-- Claim C3: every per-query race settles resolved (never rejects), the
run of `ensureMenuComponents` does not depend on the per-query events at
all, and whenever the critical check delivers a truthy component within the
budget the run resolves — so per-query timeouts alone never cause failure. -/
theorem queryTimeout_not_fatal :
    (∀ ev, queryRace ev = PromiseOutcome.resolved) ∧
    (∀ (qenvA qenvB : Nat → Fin numSelectors → QueryEvent) (cenv : Nat → Bool),
      ensureMenuComponents qenvA cenv = ensureMenuComponents qenvB cenv) ∧
    (∀ (qenv : Nat → Fin numSelectors → QueryEvent) (cenv : Nat → Bool) (k : Nat),
      1 ≤ k → k ≤ MAX_RETRIES → cenv k = true →
        (ensureMenuComponents qenv cenv).result = LoadResult.resolved) := by
  refine ⟨?_, ?_, ?_⟩
  · intro ev; cases ev <;> rfl
  · intro qa qb cenv
    rw [ensureMenuComponents_char, ensureMenuComponents_char]
  · intro qenv cenv k hk1 hk5 hk
    rw [ensureMenuComponents_char]
    simp only [MAX_RETRIES] at hk5
    interval_cases k <;>
      cases h1 : cenv 1 <;> cases h2 : cenv 2 <;> cases h3 : cenv 3 <;>
        cases h4 : cenv 4 <;> cases h5 : cenv 5 <;> simp_all

/-- Witness for claim C3: every race times out on every attempt, yet the run
resolves because the critical check is truthy on attempt 3. -/
theorem queryTimeout_not_fatal_witness :
    (ensureMenuComponents (fun _ _ => QueryEvent.timeoutFirst)
        (fun k => k == 3)).result = LoadResult.resolved :=
  queryTimeout_not_fatal.2.2 (fun _ _ => QueryEvent.timeoutFirst)
    (fun k => k == 3) 3 (by decide) (by decide) (by decide)

end MenuFix

namespace PerformancePatches

/-- Claim C8: starting from any store in which `Settings.cloud.settingsSync`
is truthy, `disableHeavyFeaturesTemporarily` leaves the live setting
observably false immediately, and schedules exactly one restore action with
a 5000 ms delay whose effect makes the live setting true again no matter
what state the store is in when the timer fires — the restore is
unconditional.  (The spread on line 60 copies the `cloud` reference, so the
write through the copy is a write to the live object.) -/
theorem disableHeavy_window (st : Store) (s : SettingsRecord)
    (h : readSync st s = true) :
    readSync (disableHeavyFeaturesTemporarily st s).1 s = false ∧
    ∃ f, (disableHeavyFeaturesTemporarily st s).2 = some (5000, f) ∧
      ∀ st2 : Store, readSync (f st2) s = true := by
  obtain ⟨ref, hs⟩ : ∃ ref, s.cloudRef = some ref := by
    unfold readSync at h
    cases hc : s.cloudRef with
    | none => rw [hc] at h; exact absurd h (by simp)
    | some r => exact ⟨r, rfl⟩
  have hcopy : shallowCopy s = s := rfl
  unfold disableHeavyFeaturesTemporarily
  rw [hcopy, if_pos h]
  refine ⟨?_, fun st2 => writeSync st2 s true, rfl, ?_⟩
  · simp [readSync, writeSync, hs]
  · intro st2
    simp [readSync, writeSync, hs]

/-- Witness for claim C8: a store whose single cloud object has
`settingsSync = true`. -/
theorem disableHeavy_window_witness :
    readSync (disableHeavyFeaturesTemporarily ⟨fun _ => true⟩ ⟨some 0⟩).1
        ⟨some 0⟩ = false ∧
    ∃ f, (disableHeavyFeaturesTemporarily ⟨fun _ => true⟩ ⟨some 0⟩).2 =
        some (5000, f) ∧
      ∀ st2 : Store, readSync (f st2) ⟨some 0⟩ = true :=
  disableHeavy_window ⟨fun _ => true⟩ ⟨some 0⟩ rfl

/-- Claim C9: the patched `setTimeout` forwards the callback and the extra
arguments untouched in every case; it forwards delay 1 exactly when the
requested delay was 0 and the callback source contains the webpack pattern
(so the delay is changed precisely in that case), and otherwise forwards
the requested delay untouched. -/
theorem patchedSetTimeout_spec {α : Type} (cb : String) (d : Nat)
    (args : List α) :
    (patchedSetTimeout cb d args).cbSource = cb ∧
    (patchedSetTimeout cb d args).args = args ∧
    (((patchedSetTimeout cb d args).delay = 1 ∧ d ≠ 1) ↔
      (d = 0 ∧ strIncludes cb webpackPattern = true)) ∧
    ((d = 0 ∧ strIncludes cb webpackPattern = true) →
      patchedSetTimeout cb d args = ⟨cb, 1, args⟩) ∧
    (¬ (d = 0 ∧ strIncludes cb webpackPattern = true) →
      patchedSetTimeout cb d args = ⟨cb, d, args⟩) := by
  by_cases hd : d = 0
  · by_cases hi : strIncludes cb webpackPattern = true
    · simp [patchedSetTimeout, hd, hi]
    · simp [patchedSetTimeout, hd, hi]
  · simp [patchedSetTimeout, hd]

/-- Witness for claim C9: a zero-delay callback whose source text mentions
`Reflect.deleteProperty` is forwarded with delay 1. -/
theorem patchedSetTimeout_spec_witness :
    patchedSetTimeout "() => Reflect.deleteProperty(waitingModules, id)" 0
        ([] : List Nat) =
      ⟨"() => Reflect.deleteProperty(waitingModules, id)", 1, []⟩ :=
  (patchedSetTimeout_spec "() => Reflect.deleteProperty(waitingModules, id)" 0
      ([] : List Nat)).2.2.2.1 ⟨rfl, by decide⟩

end PerformancePatches

namespace VoiceCrashPreventer

/-- Claim C4: with `preventCrash = false`, each of the three wrappers
propagates the exact exception thrown by its original — the propagated
error value is the one the original threw. -/
theorem mediaGuard_rethrows_unchanged {σ ε ρ : Type}
    (origSink origDisp : σ → Except ε ρ)
    (origUser : Option MediaStreamConstraints → Except ε ρ)
    (s c : σ) (cu : Option MediaStreamConstraints) (e1 e2 e3 : ε) :
    (origSink s = Except.error e1 →
      (setSinkId false origSink s).1 = Except.error e1) ∧
    (origDisp c = Except.error e2 →
      (getDisplayMedia false origDisp c).1 = Except.error e2) ∧
    (origUser cu = Except.error e3 →
      (getUserMedia false origUser cu).1 = Except.error e3) := by
  refine ⟨?_, ?_, ?_⟩
  · intro h; simp [setSinkId, h]
  · intro h; simp [getDisplayMedia, h]
  · intro h
    cases cu with
    | none => simp [getUserMedia, h]
    | some c2 => simp [getUserMedia, h]

/-- Witness for claim C4: concrete originals that throw the errors 7, 8
and 9; the wrappers propagate exactly those errors. -/
theorem mediaGuard_rethrows_unchanged_witness :
    (setSinkId false (fun _ : Nat => (Except.error 7 : Except Nat Nat)) 0).1 =
      Except.error 7 ∧
    (getDisplayMedia false (fun _ : Nat => (Except.error 8 : Except Nat Nat))
        0).1 = Except.error 8 ∧
    (getUserMedia false (fun _ => (Except.error 9 : Except Nat Nat))
        audioVideoConstraints).1 = Except.error 9 := by
  refine ⟨?_, ?_, ?_⟩
  · exact (mediaGuard_rethrows_unchanged
      (fun _ : Nat => (Except.error 7 : Except Nat Nat))
      (fun _ : Nat => (Except.error 8 : Except Nat Nat))
      (fun _ => (Except.error 9 : Except Nat Nat))
      0 0 audioVideoConstraints 7 8 9).1 rfl
  · exact (mediaGuard_rethrows_unchanged
      (fun _ : Nat => (Except.error 7 : Except Nat Nat))
      (fun _ : Nat => (Except.error 8 : Except Nat Nat))
      (fun _ => (Except.error 9 : Except Nat Nat))
      0 0 audioVideoConstraints 7 8 9).2.1 rfl
  · exact (mediaGuard_rethrows_unchanged
      (fun _ : Nat => (Except.error 7 : Except Nat Nat))
      (fun _ : Nat => (Except.error 8 : Except Nat Nat))
      (fun _ => (Except.error 9 : Except Nat Nat))
      0 0 audioVideoConstraints 7 8 9).2.2 rfl

/-- Claim C5: with `preventCrash = true`, a truthy `video` constraint and a
throwing original, the `getUserMedia` wrapper calls the original exactly
once more with `{ audio: constraints.audio }` (video absent) and returns
that second call's outcome. -/
theorem getUserMedia_video_retry {ε ρ : Type}
    (orig : Option MediaStreamConstraints → Except ε ρ)
    (c : MediaStreamConstraints) (e : ε)
    (hv : c.video.truthy = true) (he : orig (some c) = Except.error e) :
    getUserMedia true orig (some c) =
      (orig (some ⟨c.audio, JSVal.undef⟩),
        [some c, some ⟨c.audio, JSVal.undef⟩]) := by
  simp [getUserMedia, he, hv]

/-- Witness for claim C5: an original that throws on any truthy video
request and succeeds otherwise; the wrapper retries audio-only and returns
the successful retry. -/
theorem getUserMedia_video_retry_witness :
    getUserMedia true videoRejectingOrig
        (some ⟨JSVal.boolean true, JSVal.boolean true⟩) =
      (videoRejectingOrig (some ⟨JSVal.boolean true, JSVal.undef⟩),
        [some ⟨JSVal.boolean true, JSVal.boolean true⟩,
          some ⟨JSVal.boolean true, JSVal.undef⟩]) :=
  getUserMedia_video_retry videoRejectingOrig
    ⟨JSVal.boolean true, JSVal.boolean true⟩ () (by decide) rfl

/-- Claim C6: with `preventCrash = true` and a throwing original, the
`setSinkId` wrapper returns the resolved-promise fallback and never
propagates the exception. -/
theorem setSinkId_suppresses {σ ε ρ : Type} (orig : σ → Except ε ρ) (s : σ)
    (e : ε) (he : orig s = Except.error e) :
    (setSinkId true orig s).1 = Except.ok SinkResult.resolvedPromise := by
  simp [setSinkId, he]

/-- Witness for claim C6: a concrete original that always throws. -/
theorem setSinkId_suppresses_witness :
    (setSinkId true (fun _ : Nat => (Except.error 3 : Except Nat Nat)) 0).1 =
      Except.ok SinkResult.resolvedPromise :=
  setSinkId_suppresses (fun _ : Nat => (Except.error 3 : Except Nat Nat)) 0 3
    rfl

/-- Counterexample to claim C7: with `preventCrash = true`, a truthy video
constraint and a throwing original, the `getUserMedia` wrapper calls the
original twice in a single wrapper call — the media guard does retry. -/
theorem getUserMedia_double_call :
    ¬ (getUserMedia true videoRejectingOrig audioVideoConstraints).2.length ≤ 1 := by
  decide

/-- Claim C7 (amended): the `setSinkId` and `getDisplayMedia` wrappers make
exactly one call to the original per wrapper call and fall back immediately
on exception; the `getUserMedia` wrapper makes at most two calls, the
second occurring exactly when `preventCrash` is set, the `video` constraint
is truthy and the first call throws. -/
theorem mediaGuard_call_counts {σ ε ρ : Type} (p : Bool)
    (origSink origDisp : σ → Except ε ρ)
    (origUser : Option MediaStreamConstraints → Except ε ρ)
    (s c : σ) (cu : Option MediaStreamConstraints) :
    (setSinkId p origSink s).2.length = 1 ∧
    (getDisplayMedia p origDisp c).2.length = 1 ∧
    (getUserMedia p origUser cu).2.length ≤ 2 ∧
    ((getUserMedia p origUser cu).2.length = 2 ↔
      (p = true ∧ ∃ c2, cu = some c2 ∧ c2.video.truthy = true ∧
        ∃ e, origUser cu = Except.error e)) := by
  refine ⟨?_, ?_, ?_, ?_⟩
  · cases h : origSink s with
    | ok r => simp [setSinkId, h]
    | error e => cases p <;> simp [setSinkId, h]
  · cases h : origDisp c with
    | ok r => simp [getDisplayMedia, h]
    | error e => cases p <;> simp [getDisplayMedia, h]
  · cases h : origUser cu with
    | ok r => simp [getUserMedia, h]
    | error e =>
      cases cu with
      | none => simp [getUserMedia, h]
      | some c2 =>
        by_cases hc : (p && c2.video.truthy) = true
        · simp [getUserMedia, h, hc]
        · simp [getUserMedia, h, hc]
  · cases h : origUser cu with
    | ok r => simp [getUserMedia, h]
    | error e =>
      cases cu with
      | none => simp [getUserMedia, h]
      | some c2 =>
        by_cases hc : (p && c2.video.truthy) = true
        · rw [Bool.and_eq_true] at hc
          simp [getUserMedia, h, hc.1, hc.2]
        · rw [Bool.and_eq_true] at hc
          push_neg at hc
          by_cases hp : p = true
          · simp [getUserMedia, h, hp, hc hp]
          · simp [getUserMedia, h, hp]

/-- Witness for claim C7 (amended): concrete originals that all throw; the
sink and display wrappers each make one call and the user-media wrapper
makes two because video was requested. -/
theorem mediaGuard_call_counts_witness :
    (setSinkId true (fun _ : Nat => (Except.error () : Except Unit Nat))
        0).2.length = 1 ∧
    (getDisplayMedia true (fun _ : Nat => (Except.error () : Except Unit Nat))
        0).2.length = 1 ∧
    (getUserMedia true videoRejectingOrig audioVideoConstraints).2.length ≤ 2 ∧
    ((getUserMedia true videoRejectingOrig audioVideoConstraints).2.length = 2 ↔
      (true = true ∧ ∃ c2, audioVideoConstraints = some c2 ∧
        c2.video.truthy = true ∧
        ∃ e, videoRejectingOrig audioVideoConstraints = Except.error e)) :=
  mediaGuard_call_counts true
    (fun _ : Nat => (Except.error () : Except Unit Nat))
    (fun _ : Nat => (Except.error () : Except Unit Nat))
    videoRejectingOrig 0 0 audioVideoConstraints

/-- Claim C10: with `preventCrash = true` but no truthy `video` constraint
(audio-only requests or absent constraints), a throwing original's
exception is rethrown unchanged and no retry happens — the fallback is
exclusive to video requests. -/
theorem getUserMedia_video_falsy_rethrows {ε ρ : Type}
    (orig : Option MediaStreamConstraints → Except ε ρ)
    (cu : Option MediaStreamConstraints) (e : ε)
    (hv : ∀ c2, cu = some c2 → c2.video.truthy = false)
    (he : orig cu = Except.error e) :
    getUserMedia true orig cu = (Except.error e, [cu]) := by
  cases cu with
  | none => simp [getUserMedia, he]
  | some c2 =>
    have hv2 := hv c2 rfl
    simp [getUserMedia, he, hv2]

/-- Witness for claim C10: an audio-only request against an original that
always throws the error 5; the wrapper rethrows 5 with a single call. -/
theorem getUserMedia_video_falsy_rethrows_witness :
    getUserMedia true (fun _ => (Except.error 5 : Except Nat Nat))
        (some ⟨JSVal.boolean true, JSVal.boolean false⟩) =
      (Except.error 5, [some ⟨JSVal.boolean true, JSVal.boolean false⟩]) :=
  getUserMedia_video_falsy_rethrows
    (fun _ => (Except.error 5 : Except Nat Nat))
    (some ⟨JSVal.boolean true, JSVal.boolean false⟩) 5
    (fun c2 h => by cases h; rfl) rfl

end VoiceCrashPreventer

end Kernixcord
